import Mathlib

/-!
Verification of the `tdx-quote` TDX quote parsing and validation library.

The Rust source (`src/lib.rs`, `src/error.rs`, `src/take.rs`) is shallowly
embedded below.  Byte strings are `List Nat` (each element a byte value);
nom-style parsers become functions `List Nat → Option (List Nat × α)` where
`none` is any nom parse failure (every nom error crossing into `from_bytes`
is collapsed to `QuoteParseError.Parse` by the `From` impl in `error.rs`).
The cryptographic primitives from the external `p256` and `sha2` crates
(`Signature::from_bytes`, `VerifyingKey::from_sec1_bytes`,
`VerifyingKey::verify`, `Sha256`) are not part of this repository; they are
modelled abstractly as a `Crypto` record of functions over byte strings, and
every theorem is parametric in it.  A `Signature` value is represented by its
64 signature bytes and a `VerifyingKey` by its SEC1 byte encoding.

The Rust slice expression `&original_input[..QUOTE_HEADER_LENGTH + body_length]`
panics when the input is shorter than the requested prefix; `from_bytes`
therefore returns `Option (Except QuoteParseError Quote)`, with `none`
modelling that panic and `some` the ordinary `Result`.
-/

/-- Little-endian value of a byte string (first element least significant). -/
def leVal : List Nat → Nat
  | [] => 0
  | b :: bs => b + 256 * leVal bs

/-- Interpret an unsigned `w`-bit value as a two's-complement signed integer. -/
def toSigned (w : Nat) (v : Nat) : Int :=
  if v < 2 ^ (w - 1) then (v : Int) else (v : Int) - 2 ^ w

/-- Rust `usize::try_from` on a signed integer: fails exactly on negatives. -/
def usizeOfInt (v : Int) : Option Nat :=
  if 0 ≤ v then some v.toNat else none

/-- `nom::bytes::complete::take n`: take exactly `n` bytes, returning
(remaining, taken), or fail when fewer than `n` bytes remain. -/
def takeN (n : Nat) (input : List Nat) : Option (List Nat × List Nat) :=
  if n ≤ input.length then some (input.drop n, input.take n) else none

/-- `nom::number::complete::le_u16`. -/
def le_u16 (input : List Nat) : Option (List Nat × Nat) :=
  (takeN 2 input).map fun p => (p.1, leVal p.2)

/-- `nom::number::complete::le_u32`. -/
def le_u32 (input : List Nat) : Option (List Nat × Nat) :=
  (takeN 4 input).map fun p => (p.1, leVal p.2)

/-- `nom::number::complete::le_i16`. -/
def le_i16 (input : List Nat) : Option (List Nat × Int) :=
  (takeN 2 input).map fun p => (p.1, toSigned 16 (leVal p.2))

/-- `nom::number::complete::le_i32`. -/
def le_i32 (input : List Nat) : Option (List Nat × Int) :=
  (takeN 4 input).map fun p => (p.1, toSigned 32 (leVal p.2))

/-- The `n` bytes of `input` starting at offset `a`. -/
def window (input : List Nat) (a n : Nat) : List Nat :=
  (input.drop a).take n

/-- Abstract model of the cryptographic primitives from the external
`p256` and `sha2` crates. -/
structure Crypto where
  /-- `p256::ecdsa::Signature::from_bytes` succeeds on these 64 bytes. -/
  sigOk : List Nat → Bool
  /-- `p256::ecdsa::VerifyingKey::from_sec1_bytes` succeeds on these bytes. -/
  keyOk : List Nat → Bool
  /-- `VerifyingKey::verify`: key bytes, message, signature bytes. -/
  verify : List Nat → List Nat → List Nat → Bool
  /-- `sha2::Sha256` digest of a byte string. -/
  sha256 : List Nat → List Nat

/-- `QuoteParseError` from `src/error.rs`. -/
inductive QuoteParseError where
  | Parse
  | Verification
  | UnknownCertificationDataType
  | UnknownQuoteVersion
  | IntConversionError
  | UnsupportedAttestationKeyType
  | AttestationKeyDoesNotMatch
deriving DecidableEq, Repr

/-- `QuoteVerificationError` from `src/error.rs`. -/
inductive QuoteVerificationError where
  | NoQeReportCertificationData
  | BadSignature
deriving DecidableEq, Repr

/-- `TEEType` from `src/lib.rs`. -/
inductive TEEType where
  | SGX
  | TDX
deriving DecidableEq, Repr

/-- `TryFrom<u32> for TEEType` (`src/lib.rs` lines 136-146). -/
def teeTypeOfNat (value : Nat) : Option TEEType :=
  if value = 0x00000000 then some TEEType.SGX
  else if value = 0x00000081 then some TEEType.TDX
  else none

/-- `AttestionKeyType` from `src/lib.rs`. -/
inductive AttestionKeyType where
  | ECDSA256WithP256
  | ECDSA384WithP384
deriving DecidableEq, Repr

/-- `TryFrom<u16> for AttestionKeyType` (`src/lib.rs` lines 157-167). -/
def attestationKeyTypeOfNat (value : Nat) : Option AttestionKeyType :=
  if value = 2 then some AttestionKeyType.ECDSA256WithP256
  else if value = 3 then some AttestionKeyType.ECDSA384WithP384
  else none

/-- `TDXVersion` from `src/lib.rs`. -/
inductive TDXVersion where
  | One
  | OnePointFive
deriving DecidableEq, Repr

/-- `TryFrom<u16> for TDXVersion` (`src/lib.rs` lines 192-202).  The error
value (`QuoteParseError::Parse`) is discarded at the only call site, so the
conversion is modelled as an `Option`. -/
def tdxVersionOfNat (value : Nat) : Option TDXVersion :=
  if value = 2 then some TDXVersion.One
  else if value = 3 then some TDXVersion.OnePointFive
  else none

/-- `QuoteHeader` from `src/lib.rs`. -/
structure QuoteHeader where
  version : Nat
  attestation_key_type : AttestionKeyType
  tee_type : TEEType
  reserved1 : List Nat
  reserved2 : List Nat
  qe_vendor_id : List Nat
  user_data : List Nat
deriving DecidableEq, Repr

/-- `QuoteBody` from `src/lib.rs`. -/
structure QuoteBody where
  tdx_version : TDXVersion
  tee_tcb_svn : List Nat
  mrseam : List Nat
  mrsignerseam : List Nat
  seamattributes : List Nat
  tdattributes : List Nat
  xfam : List Nat
  mrtd : List Nat
  mrconfigid : List Nat
  mrowner : List Nat
  mrownerconfig : List Nat
  rtmr0 : List Nat
  rtmr1 : List Nat
  rtmr2 : List Nat
  rtmr3 : List Nat
  reportdata : List Nat
  tee_tcb_svn_2 : Option (List Nat)
  mrservicetd : Option (List Nat)
deriving DecidableEq, Repr

/-- `QeReportCertificationData` from `src/lib.rs`. -/
structure QeReportCertificationData where
  qe_report : List Nat
  signature : List Nat
  qe_authentication_data : List Nat
  certification_data : List Nat
deriving DecidableEq, Repr

/-- `CertificationData` from `src/lib.rs`. -/
inductive CertificationData where
  | PckIdPpidPlainCpusvnPcesvn (data : List Nat)
  | PckIdPpidRSA2048CpusvnPcesvn (data : List Nat)
  | PckIdPpidRSA3072CpusvnPcesvn (data : List Nat)
  | PckLeafCert (data : List Nat)
  | PckCertChain (data : List Nat)
  | QeReportCertificationData (d : QeReportCertificationData)
  | PlatformManifest (data : List Nat)
deriving DecidableEq, Repr

/-- `Quote` from `src/lib.rs`.  The `signature` field holds the 64 signature
bytes and `attestation_key` the 65-byte SEC1 encoding (`0x04` prefix). -/
structure Quote where
  header : QuoteHeader
  body : QuoteBody
  signature : List Nat
  attestation_key : List Nat
  certification_data : CertificationData
deriving DecidableEq, Repr

/-- `quote_header_parser` of `src/lib.rs` (lines 336-359).  `map_res`
turns a failing `try_into` of either enumeration into a nom parse error. -/
def quote_header_parse (input : List Nat) : Option (List Nat × QuoteHeader) :=
  match le_u16 input with
  | none => none
  | some (i, version) =>
  match le_u16 i with
  | none => none
  | some (i, attestation_key_type) =>
  match le_u32 i with
  | none => none
  | some (i, tee_type) =>
  match takeN 2 i with
  | none => none
  | some (i, reserved1) =>
  match takeN 2 i with
  | none => none
  | some (i, reserved2) =>
  match takeN 16 i with
  | none => none
  | some (i, qe_vendor_id) =>
  match takeN 20 i with
  | none => none
  | some (i, user_data) =>
  match attestationKeyTypeOfNat attestation_key_type with
  | none => none
  | some akt =>
  match teeTypeOfNat tee_type with
  | none => none
  | some tee =>
    some (i, { version := version
               attestation_key_type := akt
               tee_type := tee
               reserved1 := reserved1
               reserved2 := reserved2
               qe_vendor_id := qe_vendor_id
               user_data := user_data })

/-- `basic_body_parser` of `src/lib.rs` (lines 400-443). -/
def basic_body_parse (input : List Nat) : Option (List Nat × QuoteBody) :=
  match takeN 16 input with
  | none => none
  | some (i, tee_tcb_svn) =>
  match takeN 48 i with
  | none => none
  | some (i, mrseam) =>
  match takeN 48 i with
  | none => none
  | some (i, mrsignerseam) =>
  match takeN 8 i with
  | none => none
  | some (i, seamattributes) =>
  match takeN 8 i with
  | none => none
  | some (i, tdattributes) =>
  match takeN 8 i with
  | none => none
  | some (i, xfam) =>
  match takeN 48 i with
  | none => none
  | some (i, mrtd) =>
  match takeN 48 i with
  | none => none
  | some (i, mrconfigid) =>
  match takeN 48 i with
  | none => none
  | some (i, mrowner) =>
  match takeN 48 i with
  | none => none
  | some (i, mrownerconfig) =>
  match takeN 48 i with
  | none => none
  | some (i, rtmr0) =>
  match takeN 48 i with
  | none => none
  | some (i, rtmr1) =>
  match takeN 48 i with
  | none => none
  | some (i, rtmr2) =>
  match takeN 48 i with
  | none => none
  | some (i, rtmr3) =>
  match takeN 64 i with
  | none => none
  | some (i, reportdata) =>
    some (i, { tdx_version := TDXVersion.One
               tee_tcb_svn := tee_tcb_svn
               mrseam := mrseam
               mrsignerseam := mrsignerseam
               seamattributes := seamattributes
               tdattributes := tdattributes
               xfam := xfam
               mrtd := mrtd
               mrconfigid := mrconfigid
               mrowner := mrowner
               mrownerconfig := mrownerconfig
               rtmr0 := rtmr0
               rtmr1 := rtmr1
               rtmr2 := rtmr2
               rtmr3 := rtmr3
               reportdata := reportdata
               tee_tcb_svn_2 := none
               mrservicetd := none })

/-- `body_parser` of `src/lib.rs` (lines 362-397). -/
def body_parse (input : List Nat) (version : Nat) : Option (List Nat × QuoteBody) :=
  match (match version with
         | 4 => some (input, TDXVersion.One)
         | 5 =>
           match le_u16 input with
           | none => none
           | some (i, body_type) =>
           match le_u32 i with
           | none => none
           | some (i, _body_size) =>
           match tdxVersionOfNat body_type with
           | none => none
           | some v => some (i, v)
         | _ => none) with
  | none => none
  | some (input, tdx_version) =>
  match basic_body_parse input with
  | none => none
  | some (input, body) =>
  match tdx_version with
  | TDXVersion.OnePointFive =>
    match takeN 16 input with
    | none => none
    | some (input, tee_tcb_svn_2) =>
    match takeN 48 input with
    | none => none
    | some (input, mrservicetd) =>
      some (input, { body with
                     tdx_version := TDXVersion.OnePointFive
                     tee_tcb_svn_2 := some tee_tcb_svn_2
                     mrservicetd := some mrservicetd })
  | TDXVersion.One => some (input, body)

/-- `QeReportCertificationData::new` from `src/lib.rs` (lines 283-313).
`expected_hash` is `&qe_report[384-64..384-32]`, i.e. bytes [320, 352). -/
def QeReportCertificationData.new (c : Crypto) (input : List Nat)
    (attestation_key : List Nat) : Except QuoteParseError QeReportCertificationData :=
  match takeN 384 input with
  | none => Except.error QuoteParseError.Parse
  | some (input, qe_report) =>
    let expected_hash := (qe_report.drop (384 - 64)).take 32
    match takeN 64 input with
    | none => Except.error QuoteParseError.Parse
    | some (input, signature) =>
      if c.sigOk signature then
        match le_i16 input with
        | none => Except.error QuoteParseError.Parse
        | some (input, qe_authentication_data_size) =>
          match usizeOfInt qe_authentication_data_size with
          | none => Except.error QuoteParseError.IntConversionError
          | some sz =>
            match takeN sz input with
            | none => Except.error QuoteParseError.Parse
            | some (certification_data, qe_authentication_data) =>
              let hash := c.sha256 (attestation_key ++ qe_authentication_data)
              if hash ≠ expected_hash then
                Except.error QuoteParseError.AttestationKeyDoesNotMatch
              else
                Except.ok { qe_report := qe_report
                            signature := signature
                            qe_authentication_data := qe_authentication_data
                            certification_data := certification_data }
      else Except.error QuoteParseError.Verification

/-- `CertificationData::new` from `src/lib.rs` (lines 246-265). -/
def CertificationData.new (c : Crypto) (certification_data_type : Int)
    (data : List Nat) (attestation_key : List Nat) :
    Except QuoteParseError CertificationData :=
  if certification_data_type = 1 then
    Except.ok (CertificationData.PckIdPpidPlainCpusvnPcesvn data)
  else if certification_data_type = 2 then
    Except.ok (CertificationData.PckIdPpidRSA2048CpusvnPcesvn data)
  else if certification_data_type = 3 then
    Except.ok (CertificationData.PckIdPpidRSA3072CpusvnPcesvn data)
  else if certification_data_type = 4 then
    Except.ok (CertificationData.PckLeafCert data)
  else if certification_data_type = 5 then
    Except.ok (CertificationData.PckCertChain data)
  else if certification_data_type = 6 then
    match QeReportCertificationData.new c data attestation_key with
    | Except.error e => Except.error e
    | Except.ok d => Except.ok (CertificationData.QeReportCertificationData d)
  else if certification_data_type = 7 then
    Except.ok (CertificationData.PlatformManifest data)
  else Except.error QuoteParseError.UnknownCertificationDataType

/-- `QUOTE_HEADER_LENGTH` from `src/lib.rs`. -/
def QUOTE_HEADER_LENGTH : Nat := 48

/-- `V4_QUOTE_BODY_LENGTH` from `src/lib.rs`. -/
def V4_QUOTE_BODY_LENGTH : Nat := 584

/-- `V5_QUOTE_BODY_LENGTH` from `src/lib.rs`. -/
def V5_QUOTE_BODY_LENGTH : Nat := V4_QUOTE_BODY_LENGTH + 64

/-- `Quote::from_bytes` from `src/lib.rs` (lines 43-93).  `none` models the
panic of the slice `&original_input[..QUOTE_HEADER_LENGTH + body_length]`
on an input shorter than that prefix; `some` is the `Result` value.  Note
that line 68 of the source saves the 64 attestation-key bytes *before* the
`0x04` prefix is prepended, and those unprefixed bytes are what is passed to
`CertificationData::new`. -/
def Quote.from_bytes (c : Crypto) (original_input : List Nat) :
    Option (Except QuoteParseError Quote) :=
  match quote_header_parse original_input with
  | none => some (Except.error QuoteParseError.Parse)
  | some (input, header) =>
  if header.attestation_key_type ≠ AttestionKeyType.ECDSA256WithP256 then
    some (Except.error QuoteParseError.UnsupportedAttestationKeyType)
  else
  match (match header.version with
         | 4 => some V4_QUOTE_BODY_LENGTH
         | 5 => some V5_QUOTE_BODY_LENGTH
         | _ => none) with
  | none => some (Except.error QuoteParseError.UnknownQuoteVersion)
  | some body_length =>
  if QUOTE_HEADER_LENGTH + body_length ≤ original_input.length then
    let signed_data := original_input.take (QUOTE_HEADER_LENGTH + body_length)
    match body_parse input header.version with
    | none => some (Except.error QuoteParseError.Parse)
    | some (input, body) =>
    match le_i32 input with
    | none => some (Except.error QuoteParseError.Parse)
    | some (input, _signature_section_length) =>
    match takeN 64 input with
    | none => some (Except.error QuoteParseError.Parse)
    | some (input, signature) =>
    if c.sigOk signature then
      match takeN 64 input with
      | none => some (Except.error QuoteParseError.Parse)
      | some (input, attestation_key) =>
        let attestation_key_bytes := attestation_key
        let attestation_key := 4 :: attestation_key
        if c.keyOk attestation_key then
          if c.verify attestation_key signed_data signature then
            match le_i16 input with
            | none => some (Except.error QuoteParseError.Parse)
            | some (input, certification_data_type) =>
            match le_i32 input with
            | none => some (Except.error QuoteParseError.Parse)
            | some (input, certification_dat_len) =>
            match usizeOfInt certification_dat_len with
            | none => some (Except.error QuoteParseError.IntConversionError)
            | some certification_dat_len =>
            match takeN certification_dat_len input with
            | none => some (Except.error QuoteParseError.Parse)
            | some (_input, certification_data) =>
            match CertificationData.new c certification_data_type
                    certification_data attestation_key_bytes with
            | Except.error e => some (Except.error e)
            | Except.ok certification_data =>
              some (Except.ok { header := header
                                body := body
                                signature := signature
                                attestation_key := attestation_key
                                certification_data := certification_data })
          else some (Except.error QuoteParseError.Verification)
        else some (Except.error QuoteParseError.Verification)
    else some (Except.error QuoteParseError.Verification)
  else none

/-- `Quote::qe_report_certification_data` from `src/lib.rs` (lines 106-114). -/
def Quote.qe_report_certification_data (q : Quote) :
    Option QeReportCertificationData :=
  match q.certification_data with
  | CertificationData.QeReportCertificationData d => some d
  | _ => none

/-- `Quote::verify_with_pck` from `src/lib.rs` (lines 117-126). -/
def Quote.verify_with_pck (c : Crypto) (q : Quote) (pck : List Nat) :
    Except QuoteVerificationError Unit :=
  match q.qe_report_certification_data with
  | none => Except.error QuoteVerificationError.NoQeReportCertificationData
  | some d =>
    if c.verify pck d.qe_report d.signature then Except.ok ()
    else Except.error QuoteVerificationError.BadSignature

/-- `Quote::report_input_data` from `src/lib.rs` (lines 96-98). -/
def Quote.report_input_data (q : Quote) : List Nat := q.body.reportdata

/-- `Quote::mrtd` from `src/lib.rs` (lines 101-103). -/
def Quote.mrtd (q : Quote) : List Nat := q.body.mrtd

/-! ### Parser characterization lemmas -/

theorem takeN_of_le {n : Nat} {input : List Nat} (h : n ≤ input.length) :
    takeN n input = some (input.drop n, input.take n) := by
  simp [takeN, h]

theorem takeN_of_gt {n : Nat} {input : List Nat} (h : input.length < n) :
    takeN n input = none := by
  simp [takeN]; omega

theorem takeN_eq_some {n : Nat} {input r v : List Nat}
    (h : takeN n input = some (r, v)) :
    n ≤ input.length ∧ r = input.drop n ∧ v = input.take n := by
  by_cases hle : n ≤ input.length
  · rw [takeN_of_le hle] at h
    simp only [Option.some.injEq, Prod.mk.injEq] at h
    exact ⟨hle, h.1.symm, h.2.symm⟩
  · rw [takeN_of_gt (by omega)] at h
    exact absurd h (by simp)

theorem takeN_drop (input : List Nat) (a n : Nat) (h : a + n ≤ input.length) :
    takeN n (input.drop a) = some (input.drop (a + n), window input a n) := by
  rw [takeN_of_le (by simp; omega), List.drop_drop, window]

theorem le_u16_drop (input : List Nat) (a : Nat) (h : a + 2 ≤ input.length) :
    le_u16 (input.drop a) = some (input.drop (a + 2), leVal (window input a 2)) := by
  rw [le_u16, takeN_drop input a 2 h]; rfl

theorem le_u32_drop (input : List Nat) (a : Nat) (h : a + 4 ≤ input.length) :
    le_u32 (input.drop a) = some (input.drop (a + 4), leVal (window input a 4)) := by
  rw [le_u32, takeN_drop input a 4 h]; rfl

theorem le_i16_drop (input : List Nat) (a : Nat) (h : a + 2 ≤ input.length) :
    le_i16 (input.drop a) =
      some (input.drop (a + 2), toSigned 16 (leVal (window input a 2))) := by
  rw [le_i16, takeN_drop input a 2 h]; rfl

theorem le_i32_drop (input : List Nat) (a : Nat) (h : a + 4 ≤ input.length) :
    le_i32 (input.drop a) =
      some (input.drop (a + 4), toSigned 32 (leVal (window input a 4))) := by
  rw [le_i32, takeN_drop input a 4 h]; rfl

/-- The header value produced by a successful `quote_header_parse` run, as a
function of the input windows. -/
def headerW (input : List Nat) (akt : AttestionKeyType) (tee : TEEType) :
    QuoteHeader :=
  { version := leVal (window input 0 2)
    attestation_key_type := akt
    tee_type := tee
    reserved1 := window input 8 2
    reserved2 := window input 10 2
    qe_vendor_id := window input 12 16
    user_data := window input 28 20 }

/-- The body value produced by a successful `basic_body_parse` run on
`input.drop a`, as a function of the input windows. -/
def bodyW (input : List Nat) (a : Nat) : QuoteBody :=
  { tdx_version := TDXVersion.One
    tee_tcb_svn := window input a 16
    mrseam := window input (a + 16) 48
    mrsignerseam := window input (a + 64) 48
    seamattributes := window input (a + 112) 8
    tdattributes := window input (a + 120) 8
    xfam := window input (a + 128) 8
    mrtd := window input (a + 136) 48
    mrconfigid := window input (a + 184) 48
    mrowner := window input (a + 232) 48
    mrownerconfig := window input (a + 280) 48
    rtmr0 := window input (a + 328) 48
    rtmr1 := window input (a + 376) 48
    rtmr2 := window input (a + 424) 48
    rtmr3 := window input (a + 472) 48
    reportdata := window input (a + 520) 64
    tee_tcb_svn_2 := none
    mrservicetd := none }

theorem quote_header_parse_char {input : List Nat} (h : 48 ≤ input.length) :
    quote_header_parse input =
      match attestationKeyTypeOfNat (leVal (window input 2 2)),
            teeTypeOfNat (leVal (window input 4 4)) with
      | some akt, some tee => some (input.drop 48, headerW input akt tee)
      | _, _ => none := by
  have h0 := le_u16_drop input 0 (by omega)
  rw [List.drop_zero] at h0
  have h2 := le_u16_drop input 2 (by omega)
  have h4 := le_u32_drop input 4 (by omega)
  have h8 := takeN_drop input 8 2 (by omega)
  have h10 := takeN_drop input 10 2 (by omega)
  have h12 := takeN_drop input 12 16 (by omega)
  have h28 := takeN_drop input 28 20 (by omega)
  simp only [quote_header_parse, h0, h2, h4, h8, h10, h12, h28]
  rcases hA : attestationKeyTypeOfNat (leVal (window input 2 2)) with _ | akt <;>
    rcases hT : teeTypeOfNat (leVal (window input 4 4)) with _ | tee <;>
      simp [hA, hT, headerW]

theorem quote_header_parse_none {input : List Nat} (h : input.length < 48) :
    quote_header_parse input = none := by
  by_cases h2 : 2 ≤ input.length
  · have h0 := le_u16_drop input 0 (by omega)
    rw [List.drop_zero] at h0
    by_cases h4 : 4 ≤ input.length
    · have h2' := le_u16_drop input 2 (by omega)
      by_cases h8 : 8 ≤ input.length
      · have h4' := le_u32_drop input 4 (by omega)
        by_cases h10 : 10 ≤ input.length
        · have h8' := takeN_drop input 8 2 (by omega)
          by_cases h12 : 12 ≤ input.length
          · have h10' := takeN_drop input 10 2 (by omega)
            by_cases h28 : 28 ≤ input.length
            · have h12' := takeN_drop input 12 16 (by omega)
              have h28' : takeN 20 (input.drop 28) = none :=
                takeN_of_gt (by simp; omega)
              simp only [quote_header_parse, h0, h2', h4', h8', h10', h12', h28']
            · have h12' : takeN 16 (input.drop 12) = none :=
                takeN_of_gt (by simp; omega)
              simp only [quote_header_parse, h0, h2', h4', h8', h10', h12']
          · have h10' : takeN 2 (input.drop 10) = none :=
              takeN_of_gt (by simp; omega)
            simp only [quote_header_parse, h0, h2', h4', h8', h10']
        · have h8' : takeN 2 (input.drop 8) = none :=
            takeN_of_gt (by simp; omega)
          simp only [quote_header_parse, h0, h2', h4', h8']
      · have h4' : le_u32 (input.drop 4) = none := by
          rw [le_u32, takeN_of_gt (by simp; omega)]; rfl
        simp only [quote_header_parse, h0, h2', h4']
    · have h2' : le_u16 (input.drop 2) = none := by
        rw [le_u16, takeN_of_gt (by simp; omega)]; rfl
      simp only [quote_header_parse, h0, h2']
  · have h0 : le_u16 input = none := by
      rw [le_u16, takeN_of_gt (by omega)]; rfl
    simp only [quote_header_parse, h0]

theorem basic_body_parse_drop {input : List Nat} (a : Nat)
    (h : a + 584 ≤ input.length) :
    basic_body_parse (input.drop a) =
      some (input.drop (a + 584), bodyW input a) := by
  have k0 := takeN_drop input a 16 (by omega)
  have k1 := takeN_drop input (a + 16) 48 (by omega)
  have k2 := takeN_drop input (a + 64) 48 (by omega)
  have k3 := takeN_drop input (a + 112) 8 (by omega)
  have k4 := takeN_drop input (a + 120) 8 (by omega)
  have k5 := takeN_drop input (a + 128) 8 (by omega)
  have k6 := takeN_drop input (a + 136) 48 (by omega)
  have k7 := takeN_drop input (a + 184) 48 (by omega)
  have k8 := takeN_drop input (a + 232) 48 (by omega)
  have k9 := takeN_drop input (a + 280) 48 (by omega)
  have k10 := takeN_drop input (a + 328) 48 (by omega)
  have k11 := takeN_drop input (a + 376) 48 (by omega)
  have k12 := takeN_drop input (a + 424) 48 (by omega)
  have k13 := takeN_drop input (a + 472) 48 (by omega)
  have k14 := takeN_drop input (a + 520) 64 (by omega)
  simp only [basic_body_parse, show a + 16 + 48 = a + 64 by omega,
    show a + 64 + 48 = a + 112 by omega, show a + 112 + 8 = a + 120 by omega,
    show a + 120 + 8 = a + 128 by omega, show a + 128 + 8 = a + 136 by omega,
    show a + 136 + 48 = a + 184 by omega, show a + 184 + 48 = a + 232 by omega,
    show a + 232 + 48 = a + 280 by omega, show a + 280 + 48 = a + 328 by omega,
    show a + 328 + 48 = a + 376 by omega, show a + 376 + 48 = a + 424 by omega,
    show a + 424 + 48 = a + 472 by omega, show a + 472 + 48 = a + 520 by omega,
    show a + 520 + 64 = a + 584 by omega,
    k0, k1, k2, k3, k4, k5, k6, k7, k8, k9, k10, k11, k12, k13, k14]
  rfl

theorem body_parse_four (input : List Nat) :
    body_parse input 4 = basic_body_parse input := by
  rw [body_parse]
  rcases hb : basic_body_parse input with _ | ⟨r, b⟩ <;> simp

/-- Closed-form characterization of `Quote.from_bytes` on a version-4 input:
the outcome is a function of explicit byte windows of the input.  The
hypotheses say only that the first 8 bytes carry version 4, attestation key
type `ECDSA256WithP256` and a recognized TEE type. -/
theorem from_bytes_v4_char (c : Crypto) {input : List Nat} {tee : TEEType}
    (h48 : 48 ≤ input.length)
    (hver : leVal (window input 0 2) = 4)
    (hakt : attestationKeyTypeOfNat (leVal (window input 2 2)) =
      some AttestionKeyType.ECDSA256WithP256)
    (htee : teeTypeOfNat (leVal (window input 4 4)) = some tee) :
    Quote.from_bytes c input =
      if 632 ≤ input.length then
        if 636 ≤ input.length then
          if 700 ≤ input.length then
            if c.sigOk (window input 636 64) then
              if 764 ≤ input.length then
                if c.keyOk (4 :: window input 700 64) then
                  if c.verify (4 :: window input 700 64) (input.take 632)
                      (window input 636 64) then
                    if 766 ≤ input.length then
                      if 770 ≤ input.length then
                        match usizeOfInt (toSigned 32 (leVal (window input 766 4))) with
                        | none => some (Except.error QuoteParseError.IntConversionError)
                        | some cdl =>
                          if 770 + cdl ≤ input.length then
                            match CertificationData.new c
                                (toSigned 16 (leVal (window input 764 2)))
                                (window input 770 cdl) (window input 700 64) with
                            | Except.error e => some (Except.error e)
                            | Except.ok cd =>
                              some (Except.ok
                                { header := headerW input
                                    AttestionKeyType.ECDSA256WithP256 tee
                                  body := bodyW input 48
                                  signature := window input 636 64
                                  attestation_key := 4 :: window input 700 64
                                  certification_data := cd })
                          else some (Except.error QuoteParseError.Parse)
                      else some (Except.error QuoteParseError.Parse)
                    else some (Except.error QuoteParseError.Parse)
                  else some (Except.error QuoteParseError.Verification)
                else some (Except.error QuoteParseError.Verification)
              else some (Except.error QuoteParseError.Parse)
            else some (Except.error QuoteParseError.Verification)
          else some (Except.error QuoteParseError.Parse)
        else some (Except.error QuoteParseError.Parse)
      else none := by
  have hH : quote_header_parse input =
      some (input.drop 48, headerW input AttestionKeyType.ECDSA256WithP256 tee) := by
    rw [quote_header_parse_char h48, hakt, htee]
  by_cases h632 : 632 ≤ input.length
  · have hbody : body_parse (input.drop 48) 4 =
        some (input.drop 632, bodyW input 48) := by
      rw [body_parse_four, basic_body_parse_drop 48 (by omega)]
    by_cases h636 : 636 ≤ input.length
    · have hi32 := le_i32_drop input 632 (by omega)
      by_cases h700 : 700 ≤ input.length
      · have hsigT := takeN_drop input 636 64 (by omega)
        by_cases hs : c.sigOk (window input 636 64)
        · by_cases h764 : 764 ≤ input.length
          · have hkeyT := takeN_drop input 700 64 (by omega)
            by_cases hk : c.keyOk (4 :: window input 700 64)
            · by_cases hv : c.verify (4 :: window input 700 64)
                  (input.take 632) (window input 636 64)
              · by_cases h766 : 766 ≤ input.length
                · have hi16 := le_i16_drop input 764 (by omega)
                  by_cases h770 : 770 ≤ input.length
                  · have hi32b := le_i32_drop input 766 (by omega)
                    rcases hu : usizeOfInt (toSigned 32 (leVal (window input 766 4)))
                      with _ | cdl
                    · simp only [Quote.from_bytes, hH, headerW, hver, hakt, htee,
                        QUOTE_HEADER_LENGTH, V4_QUOTE_BODY_LENGTH, hbody, hi32,
                        hsigT, hs, hkeyT, hk, hv, hi16, hi32b, hu,
                        h632, h636, h700, h764, h766, h770,
                        if_true, if_pos, reduceIte]
                      simp [h632, h636, h700, h764, h766, h770]
                    · by_cases hcdl : 770 + cdl ≤ input.length
                      · have hpay := takeN_drop input 770 cdl (by omega)
                        rcases hcd : CertificationData.new c
                            (toSigned 16 (leVal (window input 764 2)))
                            (window input 770 cdl) (window input 700 64)
                          with e | cd
                        · simp only [Quote.from_bytes, hH, headerW, hver,
                            QUOTE_HEADER_LENGTH, V4_QUOTE_BODY_LENGTH, hbody,
                            hi32, hsigT, hs, hkeyT, hk, hv, hi16, hi32b, hu,
                            hpay, hcd]
                          simp [h632, h636, h700, h764, h766, h770, hcdl]
                        · simp only [Quote.from_bytes, hH, headerW, hver,
                            QUOTE_HEADER_LENGTH, V4_QUOTE_BODY_LENGTH, hbody,
                            hi32, hsigT, hs, hkeyT, hk, hv, hi16, hi32b, hu,
                            hpay, hcd]
                          simp [h632, h636, h700, h764, h766, h770, hcdl, headerW]
                      · have hpay : takeN cdl (input.drop 770) = none :=
                          takeN_of_gt (by simp; omega)
                        simp only [Quote.from_bytes, hH, headerW, hver,
                          QUOTE_HEADER_LENGTH, V4_QUOTE_BODY_LENGTH, hbody,
                          hi32, hsigT, hs, hkeyT, hk, hv, hi16, hi32b, hu, hpay]
                        simp [h632, h636, h700, h764, h766, h770, hcdl]
                  · have hi32b : le_i32 (input.drop 766) = none := by
                      rw [le_i32, takeN_of_gt (by simp; omega)]; rfl
                    simp only [Quote.from_bytes, hH, headerW, hver,
                      QUOTE_HEADER_LENGTH, V4_QUOTE_BODY_LENGTH, hbody, hi32,
                      hsigT, hs, hkeyT, hk, hv, hi16, hi32b]
                    simp [h632, h636, h700, h764, h766, h770]
                · have hi16 : le_i16 (input.drop 764) = none := by
                    rw [le_i16, takeN_of_gt (by simp; omega)]; rfl
                  simp only [Quote.from_bytes, hH, headerW, hver,
                    QUOTE_HEADER_LENGTH, V4_QUOTE_BODY_LENGTH, hbody, hi32,
                    hsigT, hs, hkeyT, hk, hv, hi16]
                  simp [h632, h636, h700, h764, h766]
              · simp only [Quote.from_bytes, hH, headerW, hver,
                  QUOTE_HEADER_LENGTH, V4_QUOTE_BODY_LENGTH, hbody, hi32,
                  hsigT, hs, hkeyT, hk]
                simp [h632, h636, h700, h764, hv]
            · simp only [Quote.from_bytes, hH, headerW, hver,
                QUOTE_HEADER_LENGTH, V4_QUOTE_BODY_LENGTH, hbody, hi32,
                hsigT, hs, hkeyT]
              simp [h632, h636, h700, h764, hk]
          · have hkeyT : takeN 64 (input.drop 700) = none :=
              takeN_of_gt (by simp; omega)
            simp only [Quote.from_bytes, hH, headerW, hver,
              QUOTE_HEADER_LENGTH, V4_QUOTE_BODY_LENGTH, hbody, hi32,
              hsigT, hs, hkeyT]
            simp [h632, h636, h700, h764, hs]
        · simp only [Quote.from_bytes, hH, headerW, hver,
            QUOTE_HEADER_LENGTH, V4_QUOTE_BODY_LENGTH, hbody, hi32, hsigT]
          simp [h632, h636, h700, hs]
      · have hsigT : takeN 64 (input.drop 636) = none :=
          takeN_of_gt (by simp; omega)
        simp only [Quote.from_bytes, hH, headerW, hver,
          QUOTE_HEADER_LENGTH, V4_QUOTE_BODY_LENGTH, hbody, hi32, hsigT]
        simp [h632, h636, h700]
    · have hi32 : le_i32 (input.drop 632) = none := by
        rw [le_i32, takeN_of_gt (by simp; omega)]; rfl
      simp only [Quote.from_bytes, hH, headerW, hver,
        QUOTE_HEADER_LENGTH, V4_QUOTE_BODY_LENGTH, hbody, hi32]
      simp [h632, h636]
  · simp only [Quote.from_bytes, hH, headerW, hver,
      QUOTE_HEADER_LENGTH, V4_QUOTE_BODY_LENGTH]
    simp [h632]

/-! ### List window utilities -/

theorem length_window (input : List Nat) (a n : Nat) :
    (window input a n).length = min n (input.length - a) := by
  simp [window]

theorem window_eq_drop_take (l : List Nat) (a n : Nat) :
    window l a n = (l.take (a + n)).drop a := by
  rw [window, List.drop_take]
  congr 1
  omega

theorem take_congr_le {l₁ l₂ : List Nat} {t m : Nat} (h : l₁.take t = l₂.take t)
    (hm : m ≤ t) : l₁.take m = l₂.take m := by
  calc l₁.take m = (l₁.take t).take m := by rw [List.take_take]; congr 1; omega
    _ = (l₂.take t).take m := by rw [h]
    _ = l₂.take m := by rw [List.take_take]; congr 1; omega

theorem take_set_of_le {input : List Nat} {i b n : Nat} (h : n ≤ i) :
    (input.set i b).take n = input.take n := by
  apply List.ext_getElem
  · simp
  · intro j h1 h2
    simp only [List.getElem_take]
    exact List.getElem_set_ne (show i ≠ j by simp at h1; omega) _

theorem window_set_of_le {input : List Nat} {i b a n : Nat} (h : a + n ≤ i) :
    window (input.set i b) a n = window input a n := by
  rw [window_eq_drop_take, window_eq_drop_take, take_set_of_le h]

theorem drop_set_of_gt {input : List Nat} {i b a : Nat} (h : i < a) :
    (input.set i b).drop a = input.drop a := by
  apply List.ext_getElem
  · simp
  · intro j h1 h2
    simp only [List.getElem_drop]
    exact List.getElem_set_ne (show i ≠ a + j by omega) _

theorem window_set_of_gt {input : List Nat} {i b a n : Nat} (h : i < a) :
    window (input.set i b) a n = window input a n := by
  rw [window, window, drop_set_of_gt h]

theorem take_set_ne {input : List Nat} {i b n : Nat} (hi : i < input.length)
    (hn : i < n) (hb : b ≠ input.getD i 0) :
    (input.set i b).take n ≠ input.take n := by
  intro hEq
  have h1 : ((input.set i b).take n).getD i 0 = (input.take n).getD i 0 := by
    rw [hEq]
  rw [List.getD_eq_getElem _ 0 (by simp; omega),
      List.getD_eq_getElem _ 0 (by simp; omega)] at h1
  rw [List.getElem_take, List.getElem_take, List.getElem_set_self] at h1
  rw [List.getD_eq_getElem _ 0 (by simp; omega), List.getElem_take] at h1
  rw [List.getD_eq_getElem input 0 hi] at hb
  exact hb h1

theorem drop_congr_ge {l₁ l₂ : List Nat} (a k : Nat) (h : l₁.drop a = l₂.drop a)
    (hk : a ≤ k) : l₁.drop k = l₂.drop k := by
  have hk' : k = a + (k - a) := by omega
  rw [hk', ← List.drop_drop, ← List.drop_drop, h]

theorem window_congr_ge {l₁ l₂ : List Nat} {a s n : Nat}
    (h : l₁.drop a = l₂.drop a) (hs : a ≤ s) :
    window l₁ s n = window l₂ s n := by
  rw [window, window, drop_congr_ge a s h hs]

theorem window_congr_take {l₁ l₂ : List Nat} {t s n : Nat}
    (h : l₁.take t = l₂.take t) (hs : s + n ≤ t) :
    window l₁ s n = window l₂ s n := by
  rw [window_eq_drop_take, window_eq_drop_take, take_congr_le h (by omega)]

/-! ### Inversion lemmas -/

theorem le_u16_some_inv {i r : List Nat} {v : Nat}
    (h : le_u16 i = some (r, v)) :
    2 ≤ i.length ∧ r = i.drop 2 ∧ v = leVal (i.take 2) := by
  rcases ht : takeN 2 i with _ | ⟨r', w⟩
  · rw [le_u16, ht] at h
    exact absurd h (by simp)
  · rw [le_u16, ht] at h
    obtain ⟨hle, hr, hw⟩ := takeN_eq_some ht
    simp only [Option.map_some', Option.some.injEq, Prod.mk.injEq] at h
    exact ⟨hle, by rw [← h.1, hr], by rw [← h.2, hw]⟩

theorem quote_header_parse_some_inv {input r : List Nat} {hd : QuoteHeader}
    (h : quote_header_parse input = some (r, hd)) :
    48 ≤ input.length ∧ r = input.drop 48 ∧
    hd.version = leVal (window input 0 2) ∧
    attestationKeyTypeOfNat (leVal (window input 2 2)) =
      some hd.attestation_key_type ∧
    teeTypeOfNat (leVal (window input 4 4)) = some hd.tee_type := by
  by_cases h48 : 48 ≤ input.length
  · rw [quote_header_parse_char h48] at h
    rcases hA : attestationKeyTypeOfNat (leVal (window input 2 2)) with _ | akt <;>
      rw [hA] at h
    · exact absurd h (by simp)
    rcases hT : teeTypeOfNat (leVal (window input 4 4)) with _ | tee <;>
      rw [hT] at h
    · exact absurd h (by simp)
    simp only [Option.some.injEq, Prod.mk.injEq] at h
    obtain ⟨hr, hhd⟩ := h
    subst hhd
    exact ⟨h48, hr.symm, rfl, rfl, rfl⟩
  · rw [quote_header_parse_none (by omega)] at h
    exact absurd h (by simp)

theorem basic_body_parse_fields {i r : List Nat} {b : QuoteBody}
    (h : basic_body_parse i = some (r, b)) :
    b.tdx_version = TDXVersion.One ∧ b.tee_tcb_svn_2 = none ∧
    b.mrservicetd = none := by
  simp only [basic_body_parse] at h
  repeat' split at h
  all_goals simp only [Option.some.injEq, Prod.mk.injEq, reduceCtorEq] at h
  obtain ⟨-, hb⟩ := h
  rw [← hb]
  exact ⟨rfl, rfl, rfl⟩

theorem body_parse_four_fields {i r : List Nat} {b : QuoteBody}
    (h : body_parse i 4 = some (r, b)) :
    b.tdx_version = TDXVersion.One ∧ b.tee_tcb_svn_2 = none ∧
    b.mrservicetd = none := by
  rw [body_parse_four] at h
  exact basic_body_parse_fields h

theorem body_parse_five_fields {i r : List Nat} {b : QuoteBody}
    (h : body_parse i 5 = some (r, b)) :
    (leVal (window i 0 2) = 2 →
      b.tdx_version = TDXVersion.One ∧ b.tee_tcb_svn_2 = none ∧
      b.mrservicetd = none) ∧
    (leVal (window i 0 2) = 3 →
      b.tdx_version = TDXVersion.OnePointFive ∧ b.tee_tcb_svn_2.isSome = true ∧
      b.mrservicetd.isSome = true) := by
  rcases h1 : le_u16 i with _ | ⟨i1, bt⟩
  · simp [body_parse, h1] at h
  have hbt : bt = leVal (window i 0 2) := by
    obtain ⟨-, -, hv⟩ := le_u16_some_inv h1
    rw [hv, window, List.drop_zero]
  rcases h2 : le_u32 i1 with _ | ⟨i2, bs⟩
  · simp [body_parse, h1, h2] at h
  rcases h3 : tdxVersionOfNat bt with _ | v
  · simp [body_parse, h1, h2, h3] at h
  have hbt23 : (v = TDXVersion.One → bt = 2) ∧
      (v = TDXVersion.OnePointFive → bt = 3) := by
    rw [tdxVersionOfNat] at h3
    split_ifs at h3 with e1 e2 <;> simp only [Option.some.injEq] at h3 <;>
      subst h3 <;> constructor <;> intro hv <;> first | omega | simp at hv
  rcases h4 : basic_body_parse i2 with _ | ⟨r2, body⟩
  · simp [body_parse, h1, h2, h3, h4] at h
  obtain ⟨hb1, hb2, hb3⟩ := basic_body_parse_fields h4
  rcases v with _ | _
  · simp only [body_parse, h1, h2, h3, h4] at h
    simp only [Option.some.injEq, Prod.mk.injEq] at h
    obtain ⟨-, hb⟩ := h
    subst hb
    refine ⟨fun _ => ⟨hb1, hb2, hb3⟩, fun h3' => ?_⟩
    have hbt2 : bt = 2 := hbt23.1 rfl
    omega
  · simp only [body_parse, h1, h2, h3, h4] at h
    rcases h5 : takeN 16 r2 with _ | ⟨r3, t2⟩
    · simp [h5] at h
    simp only [h5] at h
    rcases h6 : takeN 48 r3 with _ | ⟨r4, ms⟩
    · simp [h6] at h
    simp only [h6] at h
    simp only [Option.some.injEq, Prod.mk.injEq] at h
    obtain ⟨-, hb⟩ := h
    subst hb
    refine ⟨fun h2' => ?_, fun _ => ⟨rfl, rfl, rfl⟩⟩
    have hbt3 : bt = 3 := hbt23.2 rfl
    omega

theorem from_bytes_ok_inv {c : Crypto} {input : List Nat} {q : Quote}
    (h : Quote.from_bytes c input = some (Except.ok q)) :
    quote_header_parse input = some (input.drop 48, q.header) ∧
    q.header.attestation_key_type = AttestionKeyType.ECDSA256WithP256 ∧
    ∃ r2, body_parse (input.drop 48) q.header.version = some (r2, q.body) := by
  rcases hH : quote_header_parse input with _ | ⟨r, hd⟩
  · simp [Quote.from_bytes, hH] at h
  obtain ⟨h48, hr, hver, hakt, htee⟩ := quote_header_parse_some_inv hH
  subst hr
  simp only [Quote.from_bytes, hH] at h
  by_cases hA : hd.attestation_key_type = AttestionKeyType.ECDSA256WithP256
  · rw [if_neg (by simp [hA])] at h
    rcases hv : (match hd.version with
                 | 4 => some V4_QUOTE_BODY_LENGTH
                 | 5 => some V5_QUOTE_BODY_LENGTH
                 | _ => none) with _ | blen
    · simp only [hv] at h
      simp at h
    simp only [hv] at h
    by_cases hg : QUOTE_HEADER_LENGTH + blen ≤ input.length
    · rw [if_pos hg] at h
      rcases hB : body_parse (input.drop 48) hd.version with _ | ⟨r2, body⟩
      · simp only [hB] at h
        simp at h
      simp only [hB] at h
      repeat' split at h
      all_goals
        simp only [Option.some.injEq, Except.ok.injEq, reduceCtorEq] at h
      subst h
      exact ⟨rfl, hA, r2, hB⟩
    · rw [if_neg hg] at h
      simp at h
  · rw [if_pos (by simp [hA])] at h
    simp at h

theorem take_drop320_take32 (l : List Nat) :
    ((l.take 384).drop 320).take 32 = window l 320 32 := by
  rw [List.drop_take, List.take_take, window]
  norm_num

/-- Closed-form characterization of `QeReportCertificationData.new`. -/
theorem qrcd_new_char (c : Crypto) (input ak : List Nat) :
    QeReportCertificationData.new c input ak =
      if 384 ≤ input.length then
        if 448 ≤ input.length then
          if c.sigOk (window input 384 64) then
            if 450 ≤ input.length then
              match usizeOfInt (toSigned 16 (leVal (window input 448 2))) with
              | none => Except.error QuoteParseError.IntConversionError
              | some sz =>
                if 450 + sz ≤ input.length then
                  if c.sha256 (ak ++ window input 450 sz) ≠ window input 320 32 then
                    Except.error QuoteParseError.AttestationKeyDoesNotMatch
                  else
                    Except.ok { qe_report := input.take 384
                                signature := window input 384 64
                                qe_authentication_data := window input 450 sz
                                certification_data := input.drop (450 + sz) }
                else Except.error QuoteParseError.Parse
            else Except.error QuoteParseError.Parse
          else Except.error QuoteParseError.Verification
        else Except.error QuoteParseError.Parse
      else Except.error QuoteParseError.Parse := by
  by_cases h384 : 384 ≤ input.length
  · have t0 : takeN 384 input = some (input.drop 384, input.take 384) :=
      takeN_of_le h384
    by_cases h448 : 448 ≤ input.length
    · have t1 := takeN_drop input 384 64 (by omega)
      by_cases hs : c.sigOk (window input 384 64)
      · by_cases h450 : 450 ≤ input.length
        · have t2 := le_i16_drop input 448 (by omega)
          rcases hu : usizeOfInt (toSigned 16 (leVal (window input 448 2)))
            with _ | sz
          · simp only [QeReportCertificationData.new, t0, t1, hs, t2, hu,
              take_drop320_take32]
            simp [h384, h448, h450, hs]
          · by_cases hsz : 450 + sz ≤ input.length
            · have t3 := takeN_drop input 450 sz (by omega)
              by_cases hh : c.sha256 (ak ++ window input 450 sz) =
                  window input 320 32
              · simp only [QeReportCertificationData.new, t0, t1, hs, t2, hu,
                  t3, take_drop320_take32]
                simp [h384, h448, h450, hs, hsz, hh]
                rw [take_drop320_take32]
              · simp only [QeReportCertificationData.new, t0, t1, hs, t2, hu,
                  t3, take_drop320_take32]
                simp [h384, h448, h450, hs, hsz, hh]
                rw [take_drop320_take32]
                exact hh
            · have t3 : takeN sz (input.drop 450) = none :=
                takeN_of_gt (by simp; omega)
              simp only [QeReportCertificationData.new, t0, t1, hs, t2, hu, t3]
              simp [h384, h448, h450, hs, hsz]
        · have t2 : le_i16 (input.drop 448) = none := by
            rw [le_i16, takeN_of_gt (by simp; omega)]; rfl
          simp only [QeReportCertificationData.new, t0, t1, hs, t2]
          simp [h384, h448, h450, hs]
      · simp only [QeReportCertificationData.new, t0, t1, hs]
        simp [h384, h448, hs]
    · have t1 : takeN 64 (input.drop 384) = none := takeN_of_gt (by simp; omega)
      simp only [QeReportCertificationData.new, t0, t1]
      simp [h384, h448]
  · have t0 : takeN 384 input = none := takeN_of_gt (by omega)
    simp only [QeReportCertificationData.new, t0]
    simp [h384]

/-- A successful `QeReportCertificationData::new` means the recomputed digest
matched the hash window at bytes [320, 352) of the QE report. -/
theorem qrcd_new_ok_inv {c : Crypto} {input ak : List Nat}
    {d : QeReportCertificationData}
    (h : QeReportCertificationData.new c input ak = Except.ok d) :
    c.sha256 (ak ++ d.qe_authentication_data) = (d.qe_report.drop 320).take 32 ∧
    d.qe_report = input.take 384 := by
  rw [qrcd_new_char] at h
  by_cases h384 : 384 ≤ input.length
  · rw [if_pos h384] at h
    by_cases h448 : 448 ≤ input.length
    · rw [if_pos h448] at h
      by_cases hs : c.sigOk (window input 384 64)
      · rw [if_pos hs] at h
        by_cases h450 : 450 ≤ input.length
        · rw [if_pos h450] at h
          rcases hu : usizeOfInt (toSigned 16 (leVal (window input 448 2)))
            with _ | sz
          · simp only [hu] at h
            exact absurd h (by simp)
          · simp only [hu] at h
            by_cases hsz : 450 + sz ≤ input.length
            · rw [if_pos hsz] at h
              by_cases hh : c.sha256 (ak ++ window input 450 sz) =
                  window input 320 32
              · rw [if_neg (show ¬(c.sha256 (ak ++ window input 450 sz) ≠
                    window input 320 32) from by simp [hh])] at h
                simp only [Except.ok.injEq] at h
                subst h
                dsimp only
                refine ⟨?_, rfl⟩
                rw [take_drop320_take32]
                exact hh
              · rw [if_pos (show c.sha256 (ak ++ window input 450 sz) ≠
                    window input 320 32 from hh)] at h
                exact absurd h (by simp)
            · rw [if_neg hsz] at h
              exact absurd h (by simp)
        · rw [if_neg h450] at h
          exact absurd h (by simp)
      · rw [if_neg hs] at h
        exact absurd h (by simp)
    · rw [if_neg h448] at h
      exact absurd h (by simp)
  · rw [if_neg h384] at h
    exact absurd h (by simp)

theorem attestationKeyTypeOfNat_none {v : Nat} (h2 : v ≠ 2) (h3 : v ≠ 3) :
    attestationKeyTypeOfNat v = none := by
  simp [attestationKeyTypeOfNat, h2, h3]

theorem teeTypeOfNat_none {v : Nat} (h0 : v ≠ 0) (h1 : v ≠ 0x81) :
    teeTypeOfNat v = none := by
  simp [teeTypeOfNat, h0, h1]

theorem tdxVersionOfNat_none {v : Nat} (h2 : v ≠ 2) (h3 : v ≠ 3) :
    tdxVersionOfNat v = none := by
  simp [tdxVersionOfNat, h2, h3]

theorem quote_header_parse_none_of_bad {input : List Nat}
    (h48 : 48 ≤ input.length)
    (hbad : attestationKeyTypeOfNat (leVal (window input 2 2)) = none ∨
            teeTypeOfNat (leVal (window input 4 4)) = none) :
    quote_header_parse input = none := by
  rw [quote_header_parse_char h48]
  rcases hbad with hb | hb
  · rcases hT : teeTypeOfNat (leVal (window input 4 4)) with _ | tee <;>
      simp [hb, hT]
  · rcases hA : attestationKeyTypeOfNat (leVal (window input 2 2)) with _ | akt <;>
      simp [hb, hA]

theorem from_bytes_header_none (c : Crypto) {input : List Nat}
    (h : quote_header_parse input = none) :
    Quote.from_bytes c input = some (Except.error QuoteParseError.Parse) := by
  simp [Quote.from_bytes, h]

theorem from_bytes_unsupported (c : Crypto) (tee : TEEType) {input : List Nat}
    (h48 : 48 ≤ input.length)
    (hakt : leVal (window input 2 2) = 3)
    (htee : teeTypeOfNat (leVal (window input 4 4)) = some tee) :
    Quote.from_bytes c input =
      some (Except.error QuoteParseError.UnsupportedAttestationKeyType) := by
  have hH : quote_header_parse input =
      some (input.drop 48, headerW input AttestionKeyType.ECDSA384WithP384 tee) := by
    rw [quote_header_parse_char h48, hakt, htee]
    rfl
  simp [Quote.from_bytes, hH, headerW]

theorem from_bytes_unknown_version (c : Crypto) {input : List Nat} {tee : TEEType}
    (h48 : 48 ≤ input.length)
    (h4 : leVal (window input 0 2) ≠ 4) (h5 : leVal (window input 0 2) ≠ 5)
    (hakt : attestationKeyTypeOfNat (leVal (window input 2 2)) =
      some AttestionKeyType.ECDSA256WithP256)
    (htee : teeTypeOfNat (leVal (window input 4 4)) = some tee) :
    Quote.from_bytes c input =
      some (Except.error QuoteParseError.UnknownQuoteVersion) := by
  have hH : quote_header_parse input =
      some (input.drop 48, headerW input AttestionKeyType.ECDSA256WithP256 tee) := by
    rw [quote_header_parse_char h48, hakt, htee]
  simp only [Quote.from_bytes, hH]
  rw [if_neg (by simp [headerW])]
  simp only [headerW]

theorem body_parse_five_badtype {input : List Nat}
    (h6 : 6 ≤ input.length)
    (hb2 : leVal (window input 0 2) ≠ 2) (hb3 : leVal (window input 0 2) ≠ 3) :
    body_parse input 5 = none := by
  have h1 := le_u16_drop input 0 (by omega)
  rw [List.drop_zero] at h1
  have h2 := le_u32_drop input 2 (by omega)
  have h3 := tdxVersionOfNat_none hb2 hb3
  simp only [body_parse, h1, h2, h3]

theorem from_bytes_v5_body_none (c : Crypto) {input : List Nat} {tee : TEEType}
    (h48 : 48 ≤ input.length)
    (hver : leVal (window input 0 2) = 5)
    (hakt : attestationKeyTypeOfNat (leVal (window input 2 2)) =
      some AttestionKeyType.ECDSA256WithP256)
    (htee : teeTypeOfNat (leVal (window input 4 4)) = some tee)
    (h696 : 696 ≤ input.length)
    (hbody : body_parse (input.drop 48) 5 = none) :
    Quote.from_bytes c input = some (Except.error QuoteParseError.Parse) := by
  have hH : quote_header_parse input =
      some (input.drop 48, headerW input AttestionKeyType.ECDSA256WithP256 tee) := by
    rw [quote_header_parse_char h48, hakt, htee]
  simp only [Quote.from_bytes, hH]
  rw [if_neg (by simp [headerW])]
  simp only [headerW, hver, QUOTE_HEADER_LENGTH, V5_QUOTE_BODY_LENGTH,
    V4_QUOTE_BODY_LENGTH]
  rw [if_pos (by omega)]
  simp only [hbody]

/-- A `CertificationData::new` call returning the tag-6 variant means the tag
was 6 and the nested parser succeeded. -/
theorem cd_new_ok_qe_inv {c : Crypto} {t : Int} {data ak : List Nat}
    {d : QeReportCertificationData}
    (h : CertificationData.new c t data ak =
      Except.ok (CertificationData.QeReportCertificationData d)) :
    t = 6 ∧ QeReportCertificationData.new c data ak = Except.ok d := by
  rw [CertificationData.new] at h
  split_ifs at h with h1 h2 h3 h4 h5 h6 h7
  · exact absurd h (by simp)
  · exact absurd h (by simp)
  · exact absurd h (by simp)
  · exact absurd h (by simp)
  · exact absurd h (by simp)
  · rcases hn : QeReportCertificationData.new c data ak with e | d' <;>
      simp only [hn] at h
    · exact absurd h (by simp)
    · simp only [Except.ok.injEq, CertificationData.QeReportCertificationData.injEq] at h
      subst h
      exact ⟨h6, rfl⟩
  · exact absurd h (by simp)

/-! ### Concrete fixtures for witnesses and counterexamples -/

deriving instance DecidableEq for Except

set_option maxRecDepth 1000000

/-- A crypto model whose checks always succeed; used where the claim under
test does not depend on the cryptographic functions. -/
def cTrue : Crypto :=
  { sigOk := fun _ => true
    keyOk := fun _ => true
    verify := fun _ _ _ => true
    sha256 := fun _ => [] }

/-- A concrete 770-byte version-4 quote: header `[4,0,2,0,...]`, zero body,
zero signature and key, certification tag 1 with empty payload. -/
def input0 : List Nat :=
  [4, 0, 2, 0] ++ List.replicate 760 0 ++ [1, 0] ++ List.replicate 4 0

/-- The signed-data window of `input0`. -/
def w0 : List Nat := input0.take 632

/-- A crypto model under which exactly the message `w0` verifies. -/
def c0 : Crypto :=
  { sigOk := fun _ => true
    keyOk := fun _ => true
    verify := fun _ m _ => decide (m = w0)
    sha256 := fun _ => [] }

/-- The quote decoded from `input0`. -/
def q0 : Quote :=
  { header := { version := 4
                attestation_key_type := AttestionKeyType.ECDSA256WithP256
                tee_type := TEEType.SGX
                reserved1 := [0, 0]
                reserved2 := [0, 0]
                qe_vendor_id := List.replicate 16 0
                user_data := List.replicate 20 0 }
    body := { tdx_version := TDXVersion.One
              tee_tcb_svn := List.replicate 16 0
              mrseam := List.replicate 48 0
              mrsignerseam := List.replicate 48 0
              seamattributes := List.replicate 8 0
              tdattributes := List.replicate 8 0
              xfam := List.replicate 8 0
              mrtd := List.replicate 48 0
              mrconfigid := List.replicate 48 0
              mrowner := List.replicate 48 0
              mrownerconfig := List.replicate 48 0
              rtmr0 := List.replicate 48 0
              rtmr1 := List.replicate 48 0
              rtmr2 := List.replicate 48 0
              rtmr3 := List.replicate 48 0
              reportdata := List.replicate 64 0
              tee_tcb_svn_2 := none
              mrservicetd := none }
    signature := List.replicate 64 0
    attestation_key := 4 :: List.replicate 64 0
    certification_data := CertificationData.PckIdPpidPlainCpusvnPcesvn [] }

/-- A concrete 776-byte version-5 (body-type 2) quote. -/
def inputA : List Nat :=
  [5, 0, 2, 0] ++ List.replicate 44 0 ++ [2, 0] ++ List.replicate 4 0 ++
  List.replicate 584 0 ++ List.replicate 4 0 ++ List.replicate 64 0 ++
  List.replicate 64 0 ++ [1, 0] ++ List.replicate 4 0

/-- The signed-data window of `inputA` (version 5: 48 + 648 bytes). -/
def wA : List Nat := inputA.take 696

/-- A crypto model under which exactly the message `wA` verifies. -/
def cA : Crypto :=
  { sigOk := fun _ => true
    keyOk := fun _ => true
    verify := fun _ m _ => decide (m = wA)
    sha256 := fun _ => [] }

/-- The quote decoded from `inputA`: same as `q0` except version 5. -/
def qA : Quote :=
  { q0 with header := { q0.header with version := 5 } }

/-- A tag-6 certification payload: an all-zero 384-byte QE report, a zero
signature, and an empty authentication blob. -/
def payload3 : List Nat :=
  List.replicate 384 0 ++ List.replicate 64 0 ++ [0, 0]

/-- A concrete 1220-byte version-4 quote whose certification data is tag 6
with payload `payload3`. -/
def input3 : List Nat :=
  [4, 0, 2, 0] ++ List.replicate 760 0 ++ [6, 0] ++ [194, 1, 0, 0] ++ payload3

/-- The signed-data window of `input3`. -/
def w3 : List Nat := input3.take 632

/-- A crypto model for `input3`: exactly `w3` verifies, and the SHA-256 model
distinguishes the 64-byte attestation-key bytes from any other input. -/
def c3 : Crypto :=
  { sigOk := fun _ => true
    keyOk := fun _ => true
    verify := fun _ m _ => decide (m = w3)
    sha256 := fun m => if m = List.replicate 64 0 then List.replicate 32 0
      else List.replicate 32 7 }

/-- The nested certification data decoded from `payload3`. -/
def d3 : QeReportCertificationData :=
  { qe_report := List.replicate 384 0
    signature := List.replicate 64 0
    qe_authentication_data := []
    certification_data := [] }

/-- The quote decoded from `input3`. -/
def q3 : Quote :=
  { q0 with certification_data := CertificationData.QeReportCertificationData d3 }

/-- A tag-6 payload whose QE report carries `5`-bytes at [320,352) and
`9`-bytes at [352,384). -/
def payload2 : List Nat :=
  List.replicate 320 0 ++ List.replicate 32 5 ++ List.replicate 32 9 ++
  List.replicate 64 0 ++ [0, 0]

/-- A crypto model whose SHA-256 digest is constantly 32 bytes of `5`. -/
def c2c : Crypto :=
  { sigOk := fun _ => true
    keyOk := fun _ => true
    verify := fun _ _ _ => true
    sha256 := fun _ => List.replicate 32 5 }

/-- The certification data decoded from `payload2`. -/
def d2 : QeReportCertificationData :=
  { qe_report := List.replicate 320 0 ++ List.replicate 32 5 ++
      List.replicate 32 9
    signature := List.replicate 64 0
    qe_authentication_data := []
    certification_data := [] }

/-- A tag-6 payload with an all-zero QE report, so its hash window differs
from the constant digest of `c2c`. -/
def payloadErr : List Nat :=
  List.replicate 384 0 ++ List.replicate 64 0 ++ [0, 0]

/-! ### Claim theorems -/

/-- Claim C2 (amended): the 32-byte expected-hash window that the computed
SHA-256 digest is compared against is located at bytes [320, 352) (that is,
[384-64, 384-32)) of the 384-byte QE report, and whenever the digest differs
from that window, construction fails with `AttestationKeyDoesNotMatch`. -/
theorem c2_hash_window_thm (c : Crypto) (input ak : List Nat) (sz : Nat)
    (hsz : usizeOfInt (toSigned 16 (leVal (window input 448 2))) = some sz)
    (h450 : 450 + sz ≤ input.length)
    (hs : c.sigOk (window input 384 64) = true) :
    (QeReportCertificationData.new c input ak =
        Except.error QuoteParseError.AttestationKeyDoesNotMatch ↔
      c.sha256 (ak ++ window input 450 sz) ≠
        ((input.take 384).drop 320).take 32) ∧
    ((input.take 384).drop 320).take 32 = window input 320 32 := by
  rw [qrcd_new_char]
  rw [if_pos (by omega), if_pos (by omega), if_pos hs, if_pos (by omega)]
  simp only [hsz]
  rw [if_pos h450]
  refine ⟨?_, take_drop320_take32 input⟩
  rw [take_drop320_take32]
  by_cases hh : c.sha256 (ak ++ window input 450 sz) = window input 320 32 <;>
    simp [hh]

/-- Witness for C2: a concrete tag-6 payload whose digest misses the
[320, 352) window fails with `AttestationKeyDoesNotMatch`. -/
theorem c2_hash_window_witness :
    QeReportCertificationData.new c2c payloadErr [] =
      Except.error QuoteParseError.AttestationKeyDoesNotMatch :=
  ((c2_hash_window_thm c2c payloadErr [] 0 (by decide) (by decide)
    (by decide)).1).mpr (by decide)

/-- Counterexample for C2 as stated: a tag-6 payload where the digest agrees
with report-bytes [320, 352) but differs from report-bytes [352, 384), and
construction nevertheless succeeds — so the comparison window is not located
at [352, 384). -/
theorem c2_hash_window_counterexample :
    QeReportCertificationData.new c2c payload2 (List.replicate 64 0) =
      Except.ok d2 ∧
    c2c.sha256 (List.replicate 64 0 ++ []) ≠
      ((payload2.take 384).drop 352).take 32 := by
  constructor
  · decide
  · decide

/-- Claim C4 (code bug): on an input of at least 48 bytes carrying a valid
version-4 header with a supported key type, but shorter than 48 + 584 bytes,
`Quote::from_bytes` hits the slice expression
`&original_input[..QUOTE_HEADER_LENGTH + body_length]` on an out-of-range
index and panics (modelled as `none`), instead of returning a typed error. -/
theorem c4_truncated_v4_input_panics (c : Crypto) (tee : TEEType)
    {input : List Nat}
    (h48 : 48 ≤ input.length) (hlt : input.length < 632)
    (hver : leVal (window input 0 2) = 4)
    (hakt : attestationKeyTypeOfNat (leVal (window input 2 2)) =
      some AttestionKeyType.ECDSA256WithP256)
    (htee : teeTypeOfNat (leVal (window input 4 4)) = some tee) :
    Quote.from_bytes c input = none := by
  rw [from_bytes_v4_char c h48 hver hakt htee, if_neg (by omega)]

/-- Witness for C4: the concrete 48-byte version-4 header alone panics. -/
theorem c4_truncated_v4_input_panics_witness :
    Quote.from_bytes cTrue ([4, 0, 2, 0] ++ List.replicate 44 0) = none :=
  c4_truncated_v4_input_panics cTrue TEEType.SGX (by decide) (by decide)
    (by decide) (by decide) (by decide)

/-- Claim C6: an input whose 48-byte header decodes with attestation-key-type
3 (ECDSA-P384) is rejected with `UnsupportedAttestationKeyType`, and the
result is already determined by the first 48 bytes alone — the same outcome
is produced when everything after the header is discarded. -/
theorem c6_p384_rejected_before_body (c : Crypto) (tee : TEEType)
    {input : List Nat}
    (h48 : 48 ≤ input.length)
    (hakt : leVal (window input 2 2) = 3)
    (htee : teeTypeOfNat (leVal (window input 4 4)) = some tee) :
    Quote.from_bytes c input =
      some (Except.error QuoteParseError.UnsupportedAttestationKeyType) ∧
    Quote.from_bytes c (input.take 48) =
      some (Except.error QuoteParseError.UnsupportedAttestationKeyType) := by
  constructor
  · exact from_bytes_unsupported c tee h48 hakt htee
  · refine from_bytes_unsupported c tee (by simp; omega) ?_ ?_
    · rw [show window (input.take 48) 2 2 = window input 2 2 from
        window_congr_take (t := 48) (by rw [List.take_take]; norm_num)
          (by omega), hakt]
    · rw [show window (input.take 48) 4 4 = window input 4 4 from
        window_congr_take (t := 48) (by rw [List.take_take]; norm_num)
          (by omega), htee]

/-- Witness for C6: a 60-byte input with key type 3 (and version 9, showing
the rejection precedes the version check) is rejected. -/
theorem c6_p384_rejected_before_body_witness :
    Quote.from_bytes cTrue ([9, 0, 3, 0] ++ List.replicate 56 0) =
      some (Except.error QuoteParseError.UnsupportedAttestationKeyType) :=
  (c6_p384_rejected_before_body cTrue TEEType.SGX (by decide) (by decide)
    (by decide)).1

/-- Claim C7: `CertificationData::new` dispatches on the tag: tags 1-5 and 7
wrap the payload verbatim (for every payload, including the empty one), tag 6
builds the variant from the nested parser (propagating its error), and every
tag outside 1-7 (including negative tags) fails with
`UnknownCertificationDataType`. -/
theorem c7_certification_data_dispatch (c : Crypto) (data ak : List Nat)
    (t : Int) :
    CertificationData.new c 1 data ak =
      Except.ok (CertificationData.PckIdPpidPlainCpusvnPcesvn data) ∧
    CertificationData.new c 2 data ak =
      Except.ok (CertificationData.PckIdPpidRSA2048CpusvnPcesvn data) ∧
    CertificationData.new c 3 data ak =
      Except.ok (CertificationData.PckIdPpidRSA3072CpusvnPcesvn data) ∧
    CertificationData.new c 4 data ak =
      Except.ok (CertificationData.PckLeafCert data) ∧
    CertificationData.new c 5 data ak =
      Except.ok (CertificationData.PckCertChain data) ∧
    CertificationData.new c 7 data ak =
      Except.ok (CertificationData.PlatformManifest data) ∧
    (∀ d, QeReportCertificationData.new c data ak = Except.ok d →
      CertificationData.new c 6 data ak =
        Except.ok (CertificationData.QeReportCertificationData d)) ∧
    (∀ e, QeReportCertificationData.new c data ak = Except.error e →
      CertificationData.new c 6 data ak = Except.error e) ∧
    ((t < 1 ∨ 7 < t) →
      CertificationData.new c t data ak =
        Except.error QuoteParseError.UnknownCertificationDataType) := by
  refine ⟨?_, ?_, ?_, ?_, ?_, ?_, ?_, ?_, ?_⟩
  · simp [CertificationData.new]
  · simp [CertificationData.new]
  · simp [CertificationData.new]
  · simp [CertificationData.new]
  · simp [CertificationData.new]
  · simp [CertificationData.new]
  · intro d hd
    simp [CertificationData.new, hd]
  · intro e he
    simp [CertificationData.new, he]
  · intro ht
    rw [CertificationData.new]
    split_ifs with e1 e2 e3 e4 e5 e6 e7 <;> first | omega | rfl

/-- Witness for C7: a tag-1 payload is wrapped verbatim; tags 0 and -2 are
rejected. -/
theorem c7_certification_data_dispatch_witness :
    CertificationData.new cTrue 1 [9, 8] [] =
      Except.ok (CertificationData.PckIdPpidPlainCpusvnPcesvn [9, 8]) ∧
    CertificationData.new cTrue 0 [9, 8] [] =
      Except.error QuoteParseError.UnknownCertificationDataType ∧
    CertificationData.new cTrue (-2) [9, 8] [] =
      Except.error QuoteParseError.UnknownCertificationDataType :=
  ⟨(c7_certification_data_dispatch cTrue [9, 8] [] 0).1,
   (c7_certification_data_dispatch cTrue [9, 8] [] 0).2.2.2.2.2.2.2.2
     (by omega),
   (c7_certification_data_dispatch cTrue [9, 8] [] (-2)).2.2.2.2.2.2.2.2
     (by omega)⟩

/-- Claim C8: `verify_with_pck` fails with `NoQeReportCertificationData` on
any quote whose certification data is not the tag-6 variant; on a tag-6 quote
it checks the supplied key against exactly the stored QE-report bytes and the
stored signature, returning `Ok` on success and `BadSignature` on failure. -/
theorem c8_verify_with_pck_dispatch (c : Crypto) (q : Quote)
    (pck : List Nat) :
    ((∀ d, q.certification_data ≠
        CertificationData.QeReportCertificationData d) →
      Quote.verify_with_pck c q pck =
        Except.error QuoteVerificationError.NoQeReportCertificationData) ∧
    (∀ d, q.certification_data = CertificationData.QeReportCertificationData d →
      ((c.verify pck d.qe_report d.signature = true →
          Quote.verify_with_pck c q pck = Except.ok ()) ∧
       (c.verify pck d.qe_report d.signature = false →
          Quote.verify_with_pck c q pck =
            Except.error QuoteVerificationError.BadSignature))) := by
  constructor
  · intro hno
    rcases hcd : q.certification_data with data | data | data | data | data | d | data <;>
      simp [Quote.verify_with_pck, Quote.qe_report_certification_data, hcd]
    exact absurd hcd (hno d)
  · intro d hd
    constructor <;> intro hv <;>
      simp [Quote.verify_with_pck, Quote.qe_report_certification_data, hd, hv]

/-- Witness for C8: the tag-1 quote `q0` fails with
`NoQeReportCertificationData`; the tag-6 quote `q3` verifies under the
always-true crypto model. -/
theorem c8_verify_with_pck_dispatch_witness :
    Quote.verify_with_pck cTrue q0 [] =
      Except.error QuoteVerificationError.NoQeReportCertificationData ∧
    Quote.verify_with_pck cTrue q3 [] = Except.ok () :=
  ⟨(c8_verify_with_pck_dispatch cTrue q0 []).1 (fun d h => by
      simp [q0] at h),
   ((c8_verify_with_pck_dispatch cTrue q3 []).2 d3 (by decide)).1 (by decide)⟩

/-- Claim C10: an input of at least 48 bytes whose attestation-key-type field
is outside {2, 3} or whose TEE-type field is outside {0, 0x81} fails with the
generic `Parse` error — the same variant a truncated input produces. -/
theorem c10_unknown_enumerants_give_parse (c : Crypto) (input : List Nat) :
    (48 ≤ input.length →
      ((leVal (window input 2 2) ≠ 2 ∧ leVal (window input 2 2) ≠ 3) ∨
       (leVal (window input 4 4) ≠ 0 ∧ leVal (window input 4 4) ≠ 0x81)) →
      Quote.from_bytes c input = some (Except.error QuoteParseError.Parse)) ∧
    (input.length < 48 →
      Quote.from_bytes c input = some (Except.error QuoteParseError.Parse)) := by
  constructor
  · intro h48 hbad
    apply from_bytes_header_none
    apply quote_header_parse_none_of_bad h48
    rcases hbad with ⟨hb2, hb3⟩ | ⟨hb0, hb1⟩
    · exact Or.inl (attestationKeyTypeOfNat_none hb2 hb3)
    · exact Or.inr (teeTypeOfNat_none hb0 hb1)
  · intro hlt
    exact from_bytes_header_none c (quote_header_parse_none (by omega))

/-- Witness for C10: key type 5 and TEE type 7 each give `Parse`, as does a
3-byte truncated input. -/
theorem c10_unknown_enumerants_give_parse_witness :
    Quote.from_bytes cTrue ([4, 0, 5, 0] ++ List.replicate 44 0) =
      some (Except.error QuoteParseError.Parse) ∧
    Quote.from_bytes cTrue ([4, 0, 2, 0, 7, 0, 0, 0] ++ List.replicate 40 0) =
      some (Except.error QuoteParseError.Parse) ∧
    Quote.from_bytes cTrue [1, 2, 3] =
      some (Except.error QuoteParseError.Parse) :=
  ⟨(c10_unknown_enumerants_give_parse cTrue
      ([4, 0, 5, 0] ++ List.replicate 44 0)).1 (by decide)
      (Or.inl (by decide)),
   (c10_unknown_enumerants_give_parse cTrue
      ([4, 0, 2, 0, 7, 0, 0, 0] ++ List.replicate 40 0)).1 (by decide)
      (Or.inr (by decide)),
   (c10_unknown_enumerants_give_parse cTrue [1, 2, 3]).2 (by decide)⟩

/-- Everything a successful version-4 decode guarantees: minimal length, the
signature/key/verify checks passed on the exact windows, the stored
attestation key is the `0x04`-prefixed key window, and the certification data
was built by `CertificationData::new` from the declared payload window and
the *unprefixed* 64 key bytes. -/
theorem from_bytes_v4_ok_full_inv (c : Crypto) {input : List Nat} {q : Quote}
    {tee : TEEType}
    (h48 : 48 ≤ input.length)
    (hver : leVal (window input 0 2) = 4)
    (hakt : attestationKeyTypeOfNat (leVal (window input 2 2)) =
      some AttestionKeyType.ECDSA256WithP256)
    (htee : teeTypeOfNat (leVal (window input 4 4)) = some tee)
    (hok : Quote.from_bytes c input = some (Except.ok q)) :
    764 ≤ input.length ∧
    c.sigOk (window input 636 64) = true ∧
    c.keyOk (4 :: window input 700 64) = true ∧
    c.verify (4 :: window input 700 64) (input.take 632)
      (window input 636 64) = true ∧
    q.attestation_key = 4 :: window input 700 64 ∧
    ∃ cdl, usizeOfInt (toSigned 32 (leVal (window input 766 4))) = some cdl ∧
      CertificationData.new c (toSigned 16 (leVal (window input 764 2)))
        (window input 770 cdl) (window input 700 64) =
          Except.ok q.certification_data := by
  rw [from_bytes_v4_char c h48 hver hakt htee] at hok
  by_cases h632 : 632 ≤ input.length
  case neg => rw [if_neg h632] at hok; exact absurd hok (by simp)
  rw [if_pos h632] at hok
  by_cases h636 : 636 ≤ input.length
  case neg => rw [if_neg h636] at hok; exact absurd hok (by simp)
  rw [if_pos h636] at hok
  by_cases h700 : 700 ≤ input.length
  case neg => rw [if_neg h700] at hok; exact absurd hok (by simp)
  rw [if_pos h700] at hok
  by_cases hs : c.sigOk (window input 636 64) = true
  case neg => rw [if_neg hs] at hok; exact absurd hok (by simp)
  rw [if_pos hs] at hok
  by_cases h764 : 764 ≤ input.length
  case neg => rw [if_neg h764] at hok; exact absurd hok (by simp)
  rw [if_pos h764] at hok
  by_cases hk : c.keyOk (4 :: window input 700 64) = true
  case neg => rw [if_neg hk] at hok; exact absurd hok (by simp)
  rw [if_pos hk] at hok
  by_cases hv : c.verify (4 :: window input 700 64) (input.take 632)
      (window input 636 64) = true
  case neg => rw [if_neg hv] at hok; exact absurd hok (by simp)
  rw [if_pos hv] at hok
  by_cases h766 : 766 ≤ input.length
  case neg => rw [if_neg h766] at hok; exact absurd hok (by simp)
  rw [if_pos h766] at hok
  by_cases h770 : 770 ≤ input.length
  case neg => rw [if_neg h770] at hok; exact absurd hok (by simp)
  rw [if_pos h770] at hok
  rcases hu : usizeOfInt (toSigned 32 (leVal (window input 766 4))) with _ | cdl
  · simp only [hu] at hok
    exact absurd hok (by simp)
  · simp only [hu] at hok
    split_ifs at hok with hcdl
    · rcases hcd2 : CertificationData.new c
          (toSigned 16 (leVal (window input 764 2)))
          (window input 770 cdl) (window input 700 64) with e | cd
      · simp only [hcd2] at hok
        exact absurd hok (by simp)
      · simp only [hcd2] at hok
        simp only [Option.some.injEq, Except.ok.injEq] at hok
        subst hok
        exact ⟨h764, hs, hk, hv, rfl, cdl, rfl, hcd2⟩
    · exact absurd hok (by simp)

/-- A concrete 696-byte version-5 input whose body-type selector is 9. -/
def inputBadBt : List Nat :=
  [5, 0, 2, 0] ++ List.replicate 44 0 ++ [9, 0] ++ List.replicate 646 0

/-- Claim C1 (amended): for an accepted version-4 quote, flipping any single
byte at an offset in [8, 632) of the signed-data window makes
`Quote::from_bytes` fail with `Verification`, provided the signature scheme
accepts at most one message per key/signature pair; in particular this covers
incrementing byte 49.  (Flips within the first 8 bytes can instead change the
version, key-type or TEE-type fields and fail earlier with a different typed
error — see the counterexample.) -/
theorem c1_tamper_flip_verification_thm (c : Crypto)
    (hsound : ∀ k m m' s, c.verify k m s = true → m' ≠ m →
      c.verify k m' s = false)
    (input : List Nat) (q : Quote)
    (hok : Quote.from_bytes c input = some (Except.ok q))
    (hver : q.header.version = 4)
    (i : Nat) (hi8 : 8 ≤ i) (hi : i < 632) (b : Nat)
    (hb : b ≠ input.getD i 0) :
    Quote.from_bytes c (input.set i b) =
      some (Except.error QuoteParseError.Verification) := by
  obtain ⟨hH, hakt, -⟩ := from_bytes_ok_inv hok
  obtain ⟨h48, -, hverw, haktw, hteew⟩ := quote_header_parse_some_inv hH
  have hver4 : leVal (window input 0 2) = 4 := by rw [← hverw, hver]
  have haktw' : attestationKeyTypeOfNat (leVal (window input 2 2)) =
      some AttestionKeyType.ECDSA256WithP256 := by rw [haktw, hakt]
  obtain ⟨h764, hs, hk, hv, -, -⟩ :=
    from_bytes_v4_ok_full_inv c h48 hver4 haktw' hteew hok
  have hlen' : (input.set i b).length = input.length := List.length_set input i b
  have hw02 : window (input.set i b) 0 2 = window input 0 2 :=
    window_set_of_le (by omega)
  have hw22 : window (input.set i b) 2 2 = window input 2 2 :=
    window_set_of_le (by omega)
  have hw44 : window (input.set i b) 4 4 = window input 4 4 :=
    window_set_of_le (by omega)
  have hw636 : window (input.set i b) 636 64 = window input 636 64 :=
    window_set_of_gt (by omega)
  have hw700 : window (input.set i b) 700 64 = window input 700 64 :=
    window_set_of_gt (by omega)
  have htake : (input.set i b).take 632 ≠ input.take 632 :=
    take_set_ne (by omega) hi hb
  have hvf : c.verify (4 :: window input 700 64) ((input.set i b).take 632)
      (window input 636 64) = false := hsound _ _ _ _ hv htake
  rw [from_bytes_v4_char c (by omega) (by rw [hw02]; exact hver4)
      (by rw [hw22]; exact haktw') (by rw [hw44]; exact hteew)]
  rw [hw636, hw700]
  rw [if_pos (show 632 ≤ (input.set i b).length by omega),
      if_pos (show 636 ≤ (input.set i b).length by omega),
      if_pos (show 700 ≤ (input.set i b).length by omega),
      if_pos hs,
      if_pos (show 764 ≤ (input.set i b).length by omega),
      if_pos hk,
      if_neg (show ¬(c.verify (4 :: window input 700 64)
        ((input.set i b).take 632) (window input 636 64) = true) from by
          simp [hvf])]

/-- Witness for C1: incrementing byte 49 of the accepted version-4 quote
`input0` by 1 flips the result to `Verification`. -/
theorem c1_tamper_flip_verification_witness :
    Quote.from_bytes c0 (input0.set 49 1) =
      some (Except.error QuoteParseError.Verification) :=
  c1_tamper_flip_verification_thm c0
    (fun k m m' s hkm hne => by
      simp only [c0, decide_eq_true_eq] at hkm
      simp only [c0, decide_eq_false_iff_not]
      rw [← hkm]
      exact hne)
    input0 q0 (by decide) rfl 49 (by omega) (by omega) 1 (by decide)

/-- Counterexample for C1 as stated: `input0` is accepted, byte 2 lies in the
signed-data window, yet flipping it from 2 to 3 fails with
`UnsupportedAttestationKeyType`, not `Verification`. -/
theorem c1_tamper_flip_verification_counterexample :
    Quote.from_bytes c0 input0 = some (Except.ok q0) ∧
    Quote.from_bytes c0 (input0.set 2 3) =
      some (Except.error QuoteParseError.UnsupportedAttestationKeyType) ∧
    (some (Except.error QuoteParseError.UnsupportedAttestationKeyType) :
        Option (Except QuoteParseError Quote)) ≠
      some (Except.error QuoteParseError.Verification) := by
  refine ⟨by decide, by decide, by decide⟩

/-- Claim C3 (amended): the hash-binding check for tag-6 certification data
computes SHA-256 over the 64-byte X‖Y attestation-key bytes *without* the
`0x04` prefix (the prefixed 65-byte encoding is only stored in the quote),
concatenated with the authentication data. -/
theorem c3_hash_binding_unprefixed_key_thm (c : Crypto) (input : List Nat)
    (q : Quote) (d : QeReportCertificationData)
    (hok : Quote.from_bytes c input = some (Except.ok q))
    (hver : q.header.version = 4)
    (hcd : q.certification_data =
      CertificationData.QeReportCertificationData d) :
    q.attestation_key = 4 :: window input 700 64 ∧
    c.sha256 (window input 700 64 ++ d.qe_authentication_data) =
      (d.qe_report.drop 320).take 32 := by
  obtain ⟨hH, hakt, -⟩ := from_bytes_ok_inv hok
  obtain ⟨h48, -, hverw, haktw, hteew⟩ := quote_header_parse_some_inv hH
  have hver4 : leVal (window input 0 2) = 4 := by rw [← hverw, hver]
  have haktw' : attestationKeyTypeOfNat (leVal (window input 2 2)) =
      some AttestionKeyType.ECDSA256WithP256 := by rw [haktw, hakt]
  obtain ⟨-, -, -, -, hkey, cdl, -, hcdnew⟩ :=
    from_bytes_v4_ok_full_inv c h48 hver4 haktw' hteew hok
  rw [hcd] at hcdnew
  obtain ⟨-, hq⟩ := cd_new_ok_qe_inv hcdnew
  obtain ⟨h1, -⟩ := qrcd_new_ok_inv hq
  exact ⟨hkey, h1⟩

/-- Witness for C3: the concrete accepted tag-6 quote `input3`. -/
theorem c3_hash_binding_unprefixed_key_witness :
    q3.attestation_key = 4 :: window input3 700 64 ∧
    c3.sha256 (window input3 700 64 ++ d3.qe_authentication_data) =
      (d3.qe_report.drop 320).take 32 :=
  c3_hash_binding_unprefixed_key_thm c3 input3 q3 d3 (by decide) rfl rfl

/-- Counterexample for C3 as stated: `input3` is accepted with tag-6
certification data, yet SHA-256 over the 65-byte prefixed key bytes and the
authentication data does *not* equal the expected-hash window — the bytes
threaded into the hash check are the 64 unprefixed bytes. -/
theorem c3_hash_binding_unprefixed_key_counterexample :
    Quote.from_bytes c3 input3 = some (Except.ok q3) ∧
    q3.certification_data = CertificationData.QeReportCertificationData d3 ∧
    c3.sha256 ((4 :: window input3 700 64) ++ d3.qe_authentication_data) ≠
      (d3.qe_report.drop 320).take 32 := by
  refine ⟨by decide, by decide, by decide⟩

/-- Claim C5 (amended): version dispatch.  Version 4 yields sub-version One
with both optional fields absent; version 5 with body-type 2 likewise;
version 5 with body-type 3 yields OnePointFive with both optional fields
present; a header version outside {4, 5} (with a supported key type) fails
with `UnknownQuoteVersion`; but a version-5 quote with a body-type outside
{2, 3} fails with `Parse`, not `UnknownQuoteVersion`. -/
theorem c5_version_dispatch_thm (c : Crypto) (input : List Nat) (q : Quote)
    (tee : TEEType) :
    (Quote.from_bytes c input = some (Except.ok q) → q.header.version = 4 →
      q.body.tdx_version = TDXVersion.One ∧ q.body.tee_tcb_svn_2 = none ∧
      q.body.mrservicetd = none) ∧
    (Quote.from_bytes c input = some (Except.ok q) → q.header.version = 5 →
      leVal (window input 48 2) = 2 →
      q.body.tdx_version = TDXVersion.One ∧ q.body.tee_tcb_svn_2 = none ∧
      q.body.mrservicetd = none) ∧
    (Quote.from_bytes c input = some (Except.ok q) → q.header.version = 5 →
      leVal (window input 48 2) = 3 →
      q.body.tdx_version = TDXVersion.OnePointFive ∧
      q.body.tee_tcb_svn_2.isSome = true ∧ q.body.mrservicetd.isSome = true) ∧
    (48 ≤ input.length → leVal (window input 0 2) ≠ 4 →
      leVal (window input 0 2) ≠ 5 →
      attestationKeyTypeOfNat (leVal (window input 2 2)) =
        some AttestionKeyType.ECDSA256WithP256 →
      teeTypeOfNat (leVal (window input 4 4)) = some tee →
      Quote.from_bytes c input =
        some (Except.error QuoteParseError.UnknownQuoteVersion)) ∧
    (696 ≤ input.length → leVal (window input 0 2) = 5 →
      attestationKeyTypeOfNat (leVal (window input 2 2)) =
        some AttestionKeyType.ECDSA256WithP256 →
      teeTypeOfNat (leVal (window input 4 4)) = some tee →
      leVal (window input 48 2) ≠ 2 → leVal (window input 48 2) ≠ 3 →
      Quote.from_bytes c input = some (Except.error QuoteParseError.Parse)) := by
  have hwin48 : window (input.drop 48) 0 2 = window input 48 2 := by
    simp only [window, List.drop_zero]
  refine ⟨?_, ?_, ?_, ?_, ?_⟩
  · intro hok hv4
    obtain ⟨-, -, r2, hB⟩ := from_bytes_ok_inv hok
    rw [hv4] at hB
    exact body_parse_four_fields hB
  · intro hok hv5 hbt
    obtain ⟨-, -, r2, hB⟩ := from_bytes_ok_inv hok
    rw [hv5] at hB
    exact (body_parse_five_fields hB).1 (by rw [hwin48]; exact hbt)
  · intro hok hv5 hbt
    obtain ⟨-, -, r2, hB⟩ := from_bytes_ok_inv hok
    rw [hv5] at hB
    exact (body_parse_five_fields hB).2 (by rw [hwin48]; exact hbt)
  · intro h48 h4 h5 hakt htee
    exact from_bytes_unknown_version c h48 h4 h5 hakt htee
  · intro h696 hv5 hakt htee hbt2 hbt3
    refine from_bytes_v5_body_none c (by omega) hv5 hakt htee h696 ?_
    refine body_parse_five_badtype (by simp; omega) ?_ ?_
    · rw [hwin48]; exact hbt2
    · rw [hwin48]; exact hbt3

/-- Witness for C5: the accepted version-4 quote `input0`, the accepted
version-5 body-type-2 quote `inputA`, a version-9 header, and a version-5
quote with body-type 9. -/
theorem c5_version_dispatch_witness :
    (q0.body.tdx_version = TDXVersion.One ∧ q0.body.tee_tcb_svn_2 = none ∧
      q0.body.mrservicetd = none) ∧
    (qA.body.tdx_version = TDXVersion.One ∧ qA.body.tee_tcb_svn_2 = none ∧
      qA.body.mrservicetd = none) ∧
    Quote.from_bytes cTrue ([9, 0, 2, 0] ++ List.replicate 44 0) =
      some (Except.error QuoteParseError.UnknownQuoteVersion) ∧
    Quote.from_bytes cTrue inputBadBt =
      some (Except.error QuoteParseError.Parse) :=
  ⟨(c5_version_dispatch_thm c0 input0 q0 TEEType.SGX).1
      (by decide) rfl,
   (c5_version_dispatch_thm cA inputA qA TEEType.SGX).2.1
      (by decide) rfl (by decide),
   (c5_version_dispatch_thm cTrue ([9, 0, 2, 0] ++ List.replicate 44 0) q0
      TEEType.SGX).2.2.2.1
      (by decide) (by decide) (by decide) (by decide) (by decide),
   (c5_version_dispatch_thm cTrue inputBadBt q0 TEEType.SGX).2.2.2.2
      (by decide) (by decide) (by decide) (by decide) (by decide) (by decide)⟩

/-- Counterexample for C5 as stated: a version-5 quote with body-type 9 fails
with `Parse`, not `UnknownQuoteVersion`. -/
theorem c5_version_dispatch_counterexample :
    Quote.from_bytes cTrue inputBadBt =
      some (Except.error QuoteParseError.Parse) ∧
    Quote.from_bytes cTrue inputBadBt ≠
      some (Except.error QuoteParseError.UnknownQuoteVersion) := by
  refine ⟨by decide, by decide⟩

/-- Claim C9 (amended): for version-4 quotes the 4-byte signature-section
length field at offsets [632, 636) is read but has no effect: two inputs of
the same length agreeing outside that field decode identically.  (For
version-5 quotes the body-size field — and, for body-type-2, the
signature-section-length field — lies inside the signed-data window, so
altering it changes the verified message; see the counterexample.) -/
theorem c9_siglen_no_effect_v4_thm (c : Crypto) (input₁ input₂ : List Nat)
    (tee : TEEType)
    (hlen : input₁.length = input₂.length)
    (hpre : input₁.take 632 = input₂.take 632)
    (hsuf : input₁.drop 636 = input₂.drop 636)
    (h48 : 48 ≤ input₁.length)
    (hver : leVal (window input₁ 0 2) = 4)
    (hakt : attestationKeyTypeOfNat (leVal (window input₁ 2 2)) =
      some AttestionKeyType.ECDSA256WithP256)
    (htee : teeTypeOfNat (leVal (window input₁ 4 4)) = some tee) :
    Quote.from_bytes c input₁ = Quote.from_bytes c input₂ := by
  have hw : ∀ s n, s + n ≤ 632 → window input₂ s n = window input₁ s n :=
    fun s n h => (window_congr_take hpre h).symm
  have hg : ∀ s n, 636 ≤ s → window input₂ s n = window input₁ s n :=
    fun s n h => (window_congr_ge hsuf h).symm
  rw [from_bytes_v4_char c h48 hver hakt htee,
      from_bytes_v4_char c (by omega) (by rw [hw 0 2 (by omega)]; exact hver)
        (by rw [hw 2 2 (by omega)]; exact hakt)
        (by rw [hw 4 4 (by omega)]; exact htee)]
  rw [← hlen]
  rw [hg 636 64 (by omega), hg 700 64 (by omega), hg 764 2 (by omega),
      hg 766 4 (by omega), ← hpre]
  simp only [show ∀ n, window input₂ 770 n = window input₁ 770 n from
    fun n => hg 770 n (by omega)]
  have hHW : headerW input₂ AttestionKeyType.ECDSA256WithP256 tee =
      headerW input₁ AttestionKeyType.ECDSA256WithP256 tee := by
    simp only [headerW]
    rw [hw 0 2 (by omega), hw 8 2 (by omega), hw 10 2 (by omega),
        hw 12 16 (by omega), hw 28 20 (by omega)]
  have hBW : bodyW input₂ 48 = bodyW input₁ 48 := by
    simp only [bodyW]
    rw [hw 48 16 (by omega), hw 64 48 (by omega), hw 112 48 (by omega),
        hw 160 8 (by omega), hw 168 8 (by omega), hw 176 8 (by omega),
        hw 184 48 (by omega), hw 232 48 (by omega), hw 280 48 (by omega),
        hw 328 48 (by omega), hw 376 48 (by omega), hw 424 48 (by omega),
        hw 472 48 (by omega), hw 520 48 (by omega), hw 568 64 (by omega)]
  rw [hHW, hBW]

/-- Witness for C9: overwriting a byte of the signature-section length field
of the accepted version-4 quote `input0` leaves the result unchanged. -/
theorem c9_siglen_no_effect_v4_witness :
    Quote.from_bytes c0 input0 = Quote.from_bytes c0 (input0.set 633 7) :=
  c9_siglen_no_effect_v4_thm c0 input0 (input0.set 633 7) TEEType.SGX
    (by decide) (by decide) (by decide) (by decide) (by decide) (by decide)
    (by decide)

/-- Counterexample for C9 as stated: two version-5 inputs identical except in
one byte of the body-size field ([50, 54)) decode differently — the field
lies inside the signed-data window, so the signature check flips. -/
theorem c9_siglen_no_effect_v4_counterexample :
    Quote.from_bytes cA inputA = some (Except.ok qA) ∧
    Quote.from_bytes cA (inputA.set 50 1) =
      some (Except.error QuoteParseError.Verification) ∧
    Quote.from_bytes cA inputA ≠ Quote.from_bytes cA (inputA.set 50 1) := by
  refine ⟨by decide, by decide, by decide⟩
